import Mathlib

/-!
Shallow embedding of `serpentTools/samplers/detector.py`.

Numeric arrays are modelled over the reals.  A single detector record's
array is an `NDArr` (shape plus flattened, row-major data); the stacked
per-run arrays held by a `SampledDetector` are a `Stacked` (shape
`(N,) + s` plus the `N` flattened per-run rows).  All per-bin numpy
operations along the run axis (`mean(axis=0)`, `square(...).sum(axis=0)`,
`std(axis=0)`) act positionwise on the flattened rows, so they are
modelled columnwise: position `j` of the result is computed from entry
`j` of every row.  numpy's `shape[0]` for a stacked array is exactly its
number of rows, so the divisors written as `allTallies.shape[0]` in the
source appear as `rows.length` here.
-/

namespace SerpentTools

/-- A numpy array as carried by one detector record: its shape and its
flattened (row-major) data. -/
structure NDArr where
  shape : List ℕ
  data : List ℝ

/-- A stacked `(N,) + s` numpy array: full shape plus the `N` flattened
per-run rows (row `i` is the flattened array of run `i`). -/
structure Stacked where
  shape : List ℕ
  rows : List (List ℝ)

/-- One detector record (`serpentTools.Detector`), as consumed read-only by
the aggregation code: name, tally array, relative-error array, optional
index metadata (only the ordered key set matters to the merge logic) and
grid metadata (a name-to-coordinate-array mapping; Python's `None` and
`{}` behave identically everywhere the source touches `grids`, since it
only uses truthiness and `.get`, so both are modelled by `[]`). -/
structure Detector where
  name : String
  tallies : NDArr
  errors : NDArr
  indexes : Option (List String)
  grids : List (String × List ℝ)

/-- The aggregated summary (`SampledDetector`) state: the public arrays are
positionwise functions on flattened bin positions, together with the
shapes the property setters compare against (`_tallies.shape` and
`_errors.shape`, i.e. the stacked shapes with the run axis dropped). -/
structure SD where
  name : String
  talliesShape : List ℕ
  errorsShape : List ℕ
  tallies : ℕ → ℝ
  errors : ℕ → ℝ
  deviation : ℕ → ℝ
  allTallies : Option Stacked
  allErrors : Option Stacked
  indexes : Option (List String)
  grids : List (String × List ℝ)

/-- Column `j` of a list of flattened rows: entry `j` of every row
(positions beyond a row's length read as `0`; they never arise for
well-shaped input). -/
def colVals (rows : List (List ℝ)) (j : ℕ) : List ℝ :=
  rows.map (fun r => r.getD j 0)

/-- numpy `allTallies.mean(axis=0)` at flattened position `j`: numpy divides the
columnwise sum by `shape[0]`, the number of stacked rows. -/
noncomputable def meanAt (rows : List (List ℝ)) (j : ℕ) : ℝ :=
  (colVals rows j).sum / rows.length

/-- numpy `square(allErrors).sum(axis=0)` at flattened position `j`. -/
noncomputable def innerAt (rows : List (List ℝ)) (j : ℕ) : ℝ :=
  ((colVals rows j).map (fun x => x ^ 2)).sum

open Classical in
/-- Embedding of `SampledDetector.__init__` (src lines 146-161): stores the stacked
arrays, averages the tallies over the run axis, propagates the absolute
uncertainty (`sqrt(square(allErrors).sum(axis=0)) / allTallies.shape[0]`),
divides by the mean tallies exactly at the positions where the mean is
nonzero (`errors[nz] /= tallies[nz]`), and takes `deviation` as numpy's
`std(axis=0)`, i.e. `sqrt(mean(abs(x - x.mean())**2))` with divisor `N`. -/
noncomputable def SD.init (nm : String) (allT allE : Stacked)
    (indexes : Option (List String)) (grids : List (String × List ℝ)) : SD :=
  { name := nm
    talliesShape := allT.shape.drop 1
    errorsShape := allE.shape.drop 1
    tallies := fun j => meanAt allT.rows j
    errors := fun j =>
      if meanAt allT.rows j ≠ 0 then
        Real.sqrt (innerAt allE.rows j) / allT.rows.length / meanAt allT.rows j
      else
        Real.sqrt (innerAt allE.rows j) / allT.rows.length
    deviation := fun j =>
      Real.sqrt ((((colVals allT.rows j).map
        (fun x => |x - meanAt allT.rows j| ^ 2)).sum) / allT.rows.length)
    allTallies := some allT
    allErrors := some allE
    indexes := indexes
    grids := grids }

/-- Error raised by the `allTallies` / `allErrors` property setters:
`ValueError("Expected shape to be {}, is {}")`, whose first argument is
built from the stored stacked array's shape. -/
inductive SetErr where
  | valueErrorShape (expected got : List ℕ)
deriving DecidableEq

/-- The `allTallies` setter (src lines 167-183): `None` clears the slot; a
first assignment is stored unconditionally; a subsequent assignment is
compared against `self._tallies.shape` (the aggregated mean's shape, not
the stored stacked array's) and rejected with a `ValueError` whose
message is built from `self._allTallies.shape`. -/
def setAllTallies (sd : SD) (v : Option Stacked) : Except SetErr SD :=
  match v with
  | none => .ok { sd with allTallies := none }
  | some arr =>
    match sd.allTallies with
    | none => .ok { sd with allTallies := some arr }
    | some prior =>
      if arr.shape ≠ sd.talliesShape then
        .error (.valueErrorShape prior.shape arr.shape)
      else
        .ok { sd with allTallies := some arr }

/-- The `allErrors` setter (src lines 189-205): identical to the
`allTallies` setter, comparing against `self._errors.shape`. -/
def setAllErrors (sd : SD) (v : Option Stacked) : Except SetErr SD :=
  match v with
  | none => .ok { sd with allErrors := none }
  | some arr =>
    match sd.allErrors with
    | none => .ok { sd with allErrors := some arr }
    | some prior =>
      if arr.shape ≠ sd.errorsShape then
        .error (.valueErrorShape prior.shape arr.shape)
      else
        .ok { sd with allErrors := some arr }

/-- The post-free misuse error: `spreadPlot` raises
`AttributeError("allTallies is None, cannot plot all tally data")`. -/
inductive PlotErr where
  | attrErrorFreed
deriving DecidableEq

/-- The guard at the top of `SampledDetector.spreadPlot` (src lines
242-244).  The remainder of `spreadPlot` is matplotlib rendering against
external collaborators and is outside the claims. -/
def spreadPlotCheck (sd : SD) : Except PlotErr Unit :=
  match sd.allTallies with
  | none => .error .attrErrorFreed
  | some _ => .ok ()

/-- Modelled from the spec: `free()` is repository code not under `src/`
(only its caller `DetectorSampler._free` is).  Per the spec it "discards
`allTallies`/`allErrors` (sets them to an absent state), retaining only
`tallies`, `errors`, `deviation`, `indexes`, `grids`". -/
def SD.free (sd : SD) : SD :=
  { sd with allTallies := none, allErrors := none }

/-- Exceptions raised inside `SampledDetector.fromDetectors`.  The
`attrError...` constructors model Python `AttributeError`s: iterating
`iteritems(indexes)` while `indexes` is `None`, calling `.get` on a
`None` `d.indexes`, and the explicit `raise AttributeError` for a record
whose grids are absent while reference grids exist.  `typeErrorShapeNone`
models the `TypeError` from `(len(detectors),) + None` when the detector
list is empty.  The `isinstance` type check never fires in this typed
model, so it has no constructor. -/
inductive AggErr where
  | valueErrorShape (ref new : List ℕ)
  | attrErrorIndexItems
  | attrErrorIndexGet
  | keyErrorIndex (det key : String)
  | attrErrorGrids (det : String)
  | keyErrorGrid (det key : String)
  | typeErrorShapeNone
deriving DecidableEq

/-- The mutable state of the `for d in detectors` loop in `fromDetectors`:
the reference shape, the reference index keys, the reference grid
mapping (initially the empty dict) and the `differentGrids` set
(modelled as a duplicate-free list in insertion order). -/
structure LoopState where
  shape : Option (List ℕ)
  indexes : Option (List String)
  grids : List (String × List ℝ)
  diff : List String

/-- Shape handling in the loop (src lines 304-309): the first record fixes
the reference shape, every later record must match it or a `ValueError`
reporting both shapes is raised. -/
def stepShape : Option (List ℕ) → Detector → Except AggErr (List ℕ)
  | none, d => .ok d.tallies.shape
  | some s, d =>
    if s = d.tallies.shape then .ok s
    else .error (.valueErrorShape s d.tallies.shape)

/-- The body of `for key, refIx in iteritems(indexes)` (src lines 316-320):
for each reference key, `d.indexes.get(key)` is an `AttributeError` when
`d.indexes` is `None`, and a missing key raises
`KeyError("Detector {} is missing {} index")`.  With an empty reference
the body never runs, so a `None` `d.indexes` goes unnoticed. -/
def checkIndexKeys (dIdx : Option (List String)) (dname : String) :
    List String → Except AggErr Unit
  | [] => .ok ()
  | key :: rest =>
    match dIdx with
    | none => .error .attrErrorIndexGet
    | some keys =>
      if key ∈ keys then checkIndexKeys dIdx dname rest
      else .error (.keyErrorIndex dname key)

/-- Index handling in the loop (src lines 311-320): the branch condition is
`indexes is None and d.indexes is not None`; in every other case the
`else` branch iterates `iteritems(indexes)`, which is an
`AttributeError` when the reference `indexes` is still `None`. -/
def stepIndexes (ref : Option (List String)) (d : Detector) :
    Except AggErr (Option (List String)) :=
  match ref, d.indexes with
  | none, some dIdx => .ok (some dIdx)
  | none, none => .error .attrErrorIndexItems
  | some refKeys, _ =>
    match checkIndexKeys d.indexes d.name refKeys with
    | .error e => .error e
    | .ok _ => .ok (some refKeys)

/-- The dictionary lookup `d.grids.get(key)` on the grid dictionary. -/
def lookupGrid (g : List (String × List ℝ)) (k : String) : Option (List ℝ) :=
  (g.find? (fun p => p.1 == k)).map (fun p => p.2)

/-- Python `differentGrids.add(key)`: set insertion, modelled as append-if-absent. -/
def addDiff (diff : List String) (k : String) : List String :=
  if k ∈ diff then diff else diff ++ [k]

/-- The body of `for key, refGrid in iteritems(grids)` (src lines 329-335):
a reference grid name missing from the record raises
`KeyError("Detector {} is missing {} grid")`; a present grid that fails
the `allclose` tolerance comparison is recorded in `differentGrids`
instead of raising. -/
def checkGrids (close : List ℝ → List ℝ → Bool) (dGrids : List (String × List ℝ))
    (dname : String) (diff : List String) :
    List (String × List ℝ) → Except AggErr (List String)
  | [] => .ok diff
  | (key, refGrid) :: rest =>
    match lookupGrid dGrids key with
    | none => .error (.keyErrorGrid dname key)
    | some thisGrid =>
      checkGrids close dGrids dname
        (if close refGrid thisGrid then diff else addDiff diff key) rest

/-- Grid handling in the loop (src lines 322-335), keyed on Python
truthiness of `d.grids` and the accumulated `grids`: a first non-empty
grid mapping becomes the reference; a record with falsy grids while the
reference is non-empty raises
`AttributeError("Detector {} is missing grid structure")`; when both are
non-empty every reference entry is checked against the record. -/
def stepGrids (close : List ℝ → List ℝ → Bool) (grids : List (String × List ℝ))
    (diff : List String) (d : Detector) :
    Except AggErr (List (String × List ℝ) × List String) :=
  match d.grids, grids with
  | _ :: _, [] => .ok (d.grids, diff)
  | [], _ :: _ => .error (.attrErrorGrids d.name)
  | _ :: _, _ :: _ =>
    match checkGrids close d.grids d.name diff grids with
    | .error e => .error e
    | .ok diff2 => .ok (grids, diff2)
  | [], [] => .ok (grids, diff)

/-- One iteration of the `for d in detectors` loop in `fromDetectors`, in
source order: shape check, then index merge, then grid merge.  `close`
stands for numpy's tolerance comparison `allclose` (a floating-point
predicate, kept abstract). -/
def step (close : List ℝ → List ℝ → Bool) (st : LoopState) (d : Detector) :
    Except AggErr LoopState :=
  match stepShape st.shape d with
  | .error e => .error e
  | .ok s =>
    match stepIndexes st.indexes d with
    | .error e => .error e
    | .ok ix =>
      match stepGrids close st.grids st.diff d with
      | .error e => .error e
      | .ok gd => .ok { shape := some s, indexes := ix, grids := gd.1, diff := gd.2 }

/-- The whole `for d in detectors` loop. -/
def runLoop (close : List ℝ → List ℝ → Bool) (st : LoopState) :
    List Detector → Except AggErr LoopState
  | [] => .ok st
  | d :: rest =>
    match step close st d with
    | .error e => .error e
    | .ok st2 => runLoop close st2 rest

/-- Embedding of `SampledDetector.fromDetectors` (src lines 264-351): run the validation
loop, then stack the per-run tallies and the per-run absolute errors
(`d.tallies * d.errors`) into fresh `(N,) + shape` arrays and build the
summary via `SampledDetector.__init__`.  The second component of the
result is the content of the single aggregate `RuntimeWarning` about
potentially different grids (`[]` when no warning is emitted). -/
noncomputable def fromDetectors (close : List ℝ → List ℝ → Bool) (nm : String)
    (detectors : List Detector) : Except AggErr (SD × List String) :=
  match runLoop close { shape := none, indexes := none, grids := [], diff := [] } detectors with
  | .error e => .error e
  | .ok st =>
    match st.shape with
    | none => .error .typeErrorShapeNone
    | some s =>
      let fullShape := detectors.length :: s
      let allT : Stacked := { shape := fullShape, rows := detectors.map (fun d => d.tallies.data) }
      let allE : Stacked :=
        { shape := fullShape
          rows := detectors.map (fun d => List.zipWith (fun a b => a * b) d.tallies.data d.errors.data) }
      .ok (SD.init nm allT allE st.indexes st.grids, st.diff)

/-- One parsed source as seen by `DetectorSampler._checkSizes`: its file
path and, for each detector name, the shape of that detector's tally
array (the only data the size check reads). -/
structure DetParser where
  filePath : String
  detectors : List (String × List ℕ)

/-- Failures of `DetectorSampler._checkSizes`.  `combinability` is the
domain-specific error raised through `_raiseErrorMsgFromDict(misMatches,
'shape', 'detector')` (repository code outside `src/`), carrying the
mapping from each observed shape to the set of offending file paths.
`keyErrorName` is the `KeyError` from `sizes[detName]` when a later
parser exposes a detector name absent from the first parser (normally
prevented by the key-set precheck).  `attrErrorNone` is the
`AttributeError` from iterating `iteritems(None)` when there are no
parsers at all. -/
inductive SizeErr where
  | combinability (misMatches : List (List ℕ × List String))
  | keyErrorName (det : String)
  | attrErrorNone
deriving DecidableEq

/-- Python `set.add` for file paths, modelled as append-if-absent. -/
def addPath (paths : List String) (p : String) : List String :=
  if p ∈ paths then paths else paths ++ [p]

/-- The update of the per-name shape-to-paths dict (insertion-ordered): a new
shape is inserted with the singleton path set, a known shape has the path
added to its set. -/
def updateLevel : List (List ℕ × List String) → List ℕ → String →
    List (List ℕ × List String)
  | [], shape, path => [(shape, [path])]
  | (s, ps) :: rest, shape, path =>
    if s = shape then (s, addPath ps path) :: rest
    else (s, ps) :: updateLevel rest shape path

/-- The lookup `level = sizes[detName]` followed by the level update: a `KeyError`
when `detName` is not a key of `sizes`. -/
def sizesUpdate : List (String × List (List ℕ × List String)) → String → String →
    List ℕ → Except SizeErr (List (String × List (List ℕ × List String)))
  | [], n, _, _ => .error (.keyErrorName n)
  | (m, lvl) :: rest, n, path, shape =>
    if m = n then .ok ((m, updateLevel lvl shape path) :: rest)
    else
      match sizesUpdate rest n path shape with
      | .error e => .error e
      | .ok rest2 => .ok ((m, lvl) :: rest2)

/-- The loop `for detName, det in iteritems(parser.detectors)` (src lines 71-77). -/
def fillSizes (sizes : List (String × List (List ℕ × List String))) (path : String) :
    List (String × List ℕ) →
    Except SizeErr (List (String × List (List ℕ × List String)))
  | [] => .ok sizes
  | (n, shape) :: rest =>
    match sizesUpdate sizes n path shape with
    | .error e => .error e
    | .ok sizes2 => fillSizes sizes2 path rest

/-- The `for parser in self.parsers` loop of `_checkSizes` (src lines
67-77): the first parser seeds `sizes` with an empty level per detector
name, then every parser's observed shapes are recorded. -/
def buildSizes (sizes : Option (List (String × List (List ℕ × List String)))) :
    List DetParser →
    Except SizeErr (Option (List (String × List (List ℕ × List String))))
  | [] => .ok sizes
  | p :: rest =>
    let s0 := match sizes with
      | none => p.detectors.map (fun q => (q.1, ([] : List (List ℕ × List String))))
      | some s => s
    match fillSizes s0 p.filePath p.detectors with
    | .error e => .error e
    | .ok s1 => buildSizes (some s1) rest

/-- The reporting loop of `_checkSizes` (src lines 78-80): the first
detector name observed with more than one distinct shape triggers the
error. -/
def firstMismatch : List (String × List (List ℕ × List String)) →
    Option (List (List ℕ × List String))
  | [] => none
  | (_, lvl) :: rest => if 1 < lvl.length then some lvl else firstMismatch rest

/-- Embedding of `DetectorSampler._checkSizes` (src lines 66-80).  The unordered
`self.parsers` set is modelled as a list; "the first parser" is the
first list element. -/
def checkSizes (parsers : List DetParser) : Except SizeErr Unit :=
  match buildSizes none parsers with
  | .error e => .error e
  | .ok none => .error .attrErrorNone
  | .ok (some sizes) =>
    match firstMismatch sizes with
    | none => .ok ()
    | some lvl => .error (.combinability lvl)

/-- A single-bin detector record carrying tally `t` and relative error `e`
(with trivially satisfiable index metadata and no grids), used to state
the identical-runs propagation scenario of the spec. -/
def runRecord (nm : String) (t e : ℝ) : Detector :=
  { name := nm
    tallies := { shape := [1], data := [t] }
    errors := { shape := [1], data := [e] }
    indexes := some []
    grids := [] }

/-! ### Helper lemmas -/

theorem sum_eq_zero_iff_of_nonneg (l : List ℝ) (h : ∀ x ∈ l, 0 ≤ x) :
    l.sum = 0 ↔ ∀ x ∈ l, x = 0 := by
  induction l with
  | nil => simp
  | cons a t ih =>
    have ha : 0 ≤ a := h a (by simp)
    have ht : ∀ x ∈ t, 0 ≤ x := fun x hx => h x (by simp [hx])
    have hts : 0 ≤ t.sum := List.sum_nonneg ht
    simp only [List.sum_cons, List.mem_cons]
    rw [add_eq_zero_iff_of_nonneg ha hts, ih ht]
    constructor
    · rintro ⟨h1, h2⟩ x (rfl | hx)
      · exact h1
      · exact h2 x hx
    · intro hall
      exact ⟨hall a (Or.inl rfl), fun x hx => hall x (Or.inr hx)⟩

theorem zipWith_mul_getD (a b : List ℝ) (h : a.length = b.length) (j : ℕ) :
    (List.zipWith (fun x y => x * y) a b).getD j 0 = a.getD j 0 * b.getD j 0 := by
  induction a generalizing b j with
  | nil =>
    cases b with
    | nil => simp
    | cons y ys => simp at h
  | cons x xs ih =>
    cases b with
    | nil => simp at h
    | cons y ys =>
      cases j with
      | zero => simp
      | succ k =>
        simp only [List.zipWith_cons_cons, List.getD_cons_succ]
        exact ih ys (by simpa using h) k

theorem innerAt_nonneg (rows : List (List ℝ)) (j : ℕ) : 0 ≤ innerAt rows j := by
  apply List.sum_nonneg
  intro x hx
  rcases List.mem_map.mp hx with ⟨y, _, rfl⟩
  positivity

theorem stepGrids_refEmpty (close : List ℝ → List ℝ → Bool) (diff : List String)
    (d : Detector) : stepGrids close [] diff d = .ok (d.grids, diff) := by
  rcases hg : d.grids with _ | ⟨p, rest⟩
  · simp [stepGrids, hg]
  · simp [stepGrids, hg]

theorem step_first (close : List ℝ → List ℝ → Bool) (d : Detector) (I : List String)
    (hI : d.indexes = some I) :
    step close { shape := none, indexes := none, grids := [], diff := [] } d =
      .ok { shape := some d.tallies.shape, indexes := some I, grids := d.grids,
            diff := [] } := by
  simp [step, stepShape, stepIndexes, hI, stepGrids_refEmpty]

theorem step_ok_shape (close : List ℝ → List ℝ → Bool) (st st2 : LoopState)
    (d : Detector) (s : List ℕ) (hst : st.shape = some s)
    (h : step close st d = .ok st2) :
    d.tallies.shape = s ∧ st2.shape = some s := by
  unfold step at h
  rw [hst] at h
  by_cases hs : s = d.tallies.shape
  · subst hs
    simp only [stepShape, if_pos] at h
    refine ⟨rfl, ?_⟩
    rcases hix : stepIndexes st.indexes d with e | ix
    · rw [hix] at h
      exact Except.noConfusion h
    · rw [hix] at h
      rcases hg : stepGrids close st.grids st.diff d with e | gd
      · rw [hg] at h
        exact Except.noConfusion h
      · rw [hg] at h
        injection h with h2
        rw [h2.symm]
  · simp only [stepShape, if_neg hs] at h
    exact Except.noConfusion h

theorem step_ok_shape_none (close : List ℝ → List ℝ → Bool) (st st2 : LoopState)
    (d : Detector) (hst : st.shape = none) (h : step close st d = .ok st2) :
    st2.shape = some d.tallies.shape := by
  unfold step at h
  rw [hst] at h
  simp only [stepShape] at h
  rcases hix : stepIndexes st.indexes d with e | ix
  · rw [hix] at h
    exact Except.noConfusion h
  · rw [hix] at h
    rcases hg : stepGrids close st.grids st.diff d with e | gd
    · rw [hg] at h
      exact Except.noConfusion h
    · rw [hg] at h
      injection h with h2
      rw [h2.symm]

theorem runLoop_ok_shapes (close : List ℝ → List ℝ → Bool) :
    ∀ (ds : List Detector) (st st2 : LoopState) (s : List ℕ),
      st.shape = some s → runLoop close st ds = .ok st2 →
      ∀ d ∈ ds, d.tallies.shape = s := by
  intro ds
  induction ds with
  | nil => simp
  | cons d rest ih =>
    intro st st2 s hst h d2 hd2
    simp only [runLoop] at h
    rcases hstep : step close st d with e | st1
    · rw [hstep] at h
      exact Except.noConfusion h
    · rw [hstep] at h
      have hss := step_ok_shape close st st1 d s hst hstep
      rcases List.mem_cons.mp hd2 with rfl | hmem
      · exact hss.1
      · exact ih st1 st2 s hss.2 h d2 hmem

theorem runLoop_steady (close : List ℝ → List ℝ → Bool) (st : LoopState)
    (d : Detector) (h : step close st d = .ok st) :
    ∀ k, runLoop close st (List.replicate k d) = .ok st := by
  intro k
  induction k with
  | zero => rfl
  | succ n ih =>
    rw [List.replicate_succ]
    simp [runLoop, h, ih]

theorem meanAt_replicate (N : ℕ) (hN : N ≠ 0) (x : ℝ) :
    meanAt (List.replicate N [x]) 0 = x := by
  simp only [meanAt, colVals, List.map_replicate, List.getD_cons_zero,
    List.sum_replicate, nsmul_eq_mul, List.length_replicate]
  exact mul_div_cancel_left₀ x (Nat.cast_ne_zero.mpr hN)

theorem innerAt_replicate (N : ℕ) (y : ℝ) :
    innerAt (List.replicate N [y]) 0 = N * y ^ 2 := by
  simp only [innerAt, colVals, List.map_replicate, List.getD_cons_zero,
    List.sum_replicate, nsmul_eq_mul]

theorem meanAt_single (r : List ℝ) (j : ℕ) : meanAt [r] j = r.getD j 0 := by
  simp only [meanAt, colVals, List.map_cons, List.map_nil, List.sum_cons, List.sum_nil,
    add_zero, List.length_cons, List.length_nil, zero_add, Nat.cast_one, div_one]

theorem innerAt_single (r : List ℝ) (j : ℕ) : innerAt [r] j = r.getD j 0 ^ 2 := by
  simp only [innerAt, colVals, List.map_cons, List.map_nil, List.sum_cons, List.sum_nil,
    add_zero]

theorem addDiff_mem (diff : List String) (k key : String) :
    key ∈ addDiff diff k ↔ key ∈ diff ∨ key = k := by
  unfold addDiff
  by_cases h : k ∈ diff
  · simp only [if_pos h]
    constructor
    · exact Or.inl
    · rintro (hk | rfl)
      · exact hk
      · exact h
  · simp [if_neg h]

theorem stepGrids_both_cons (close : List ℝ → List ℝ → Bool)
    (g : List (String × List ℝ)) (diff : List String) (d : Detector)
    (hg : g ≠ []) (hd : d.grids ≠ []) :
    stepGrids close g diff d =
      match checkGrids close d.grids d.name diff g with
      | .error e => .error e
      | .ok diff2 => .ok (g, diff2) := by
  obtain ⟨g0, gs, rfl⟩ := List.exists_cons_of_ne_nil hg
  obtain ⟨b0, bs, hb⟩ := List.exists_cons_of_ne_nil hd
  simp only [stepGrids, hb]

theorem checkGrids_first_missing (close : List ℝ → List ℝ → Bool)
    (dGrids : List (String × List ℝ)) (dname : String) :
    ∀ (pre : List (String × List ℝ)) (diff : List String) (k : String) (v : List ℝ)
      (post : List (String × List ℝ)),
      (∀ p ∈ pre, lookupGrid dGrids p.1 ≠ none) →
      lookupGrid dGrids k = none →
      checkGrids close dGrids dname diff (pre ++ (k, v) :: post) =
        .error (.keyErrorGrid dname k) := by
  intro pre
  induction pre with
  | nil =>
    intro diff k v post _ hk
    simp [checkGrids, hk]
  | cons q rest ih =>
    intro diff k v post hall hk
    obtain ⟨qk, qv⟩ := q
    rcases hlq : lookupGrid dGrids qk with _ | tg
    · exact absurd hlq (hall (qk, qv) (List.mem_cons_self _ _))
    · rw [List.cons_append]
      simp only [checkGrids, hlq]
      exact ih _ k v post (fun p hp => hall p (List.mem_cons_of_mem _ hp)) hk

theorem checkGrids_all_present (close : List ℝ → List ℝ → Bool)
    (dGrids : List (String × List ℝ)) (dname : String) :
    ∀ (refg : List (String × List ℝ)) (diff : List String),
      (∀ p ∈ refg, lookupGrid dGrids p.1 ≠ none) →
      ∃ diff2, checkGrids close dGrids dname diff refg = .ok diff2 ∧
        ∀ key, (key ∈ diff2 ↔ (key ∈ diff ∨ ∃ rg tg, (key, rg) ∈ refg ∧
          lookupGrid dGrids key = some tg ∧ close rg tg = false)) := by
  intro refg
  induction refg with
  | nil =>
    intro diff _
    exact ⟨diff, rfl, fun key => by simp⟩
  | cons q rest ih =>
    intro diff hall
    obtain ⟨qk, qv⟩ := q
    rcases hlq : lookupGrid dGrids qk with _ | tg
    · exact absurd hlq (hall (qk, qv) (List.mem_cons_self _ _))
    · obtain ⟨diff2, hck, hmem⟩ := ih (if close qv tg then diff else addDiff diff qk)
        (fun p hp => hall p (List.mem_cons_of_mem _ hp))
      refine ⟨diff2, ?_, ?_⟩
      · simp only [checkGrids, hlq]
        exact hck
      · intro key
        rw [hmem key]
        by_cases hc : close qv tg = true
        · rw [if_pos hc]
          constructor
          · rintro (h | ⟨rg, tg2, hmem2, hl, hcl⟩)
            · exact Or.inl h
            · exact Or.inr ⟨rg, tg2, List.mem_cons_of_mem _ hmem2, hl, hcl⟩
          · rintro (h | ⟨rg, tg2, hmem2, hl, hcl⟩)
            · exact Or.inl h
            · rcases List.mem_cons.mp hmem2 with heq | hmem3
              · have hk : key = qk := congrArg Prod.fst heq
                have hv : rg = qv := congrArg Prod.snd heq
                rw [hk, hlq] at hl
                have htg : tg = tg2 := Option.some.inj hl
                rw [hv, ← htg] at hcl
                rw [hcl] at hc
                exact absurd hc (by simp)
              · exact Or.inr ⟨rg, tg2, hmem3, hl, hcl⟩
        · rw [if_neg hc]
          have hcf : close qv tg = false := by
            rcases h2 : close qv tg with _ | _
            · rfl
            · exact absurd h2 hc
          constructor
          · rintro (hd | ⟨rg, tg2, hmem2, hl, hcl⟩)
            · rcases (addDiff_mem diff qk key).mp hd with h | rfl
              · exact Or.inl h
              · exact Or.inr ⟨qv, tg, List.mem_cons_self _ _, hlq, hcf⟩
            · exact Or.inr ⟨rg, tg2, List.mem_cons_of_mem _ hmem2, hl, hcl⟩
          · rintro (h | ⟨rg, tg2, hmem2, hl, hcl⟩)
            · exact Or.inl ((addDiff_mem diff qk key).mpr (Or.inl h))
            · rcases List.mem_cons.mp hmem2 with heq | hmem3
              · have hk : key = qk := congrArg Prod.fst heq
                exact Or.inl ((addDiff_mem diff qk key).mpr (Or.inr hk))
              · exact Or.inr ⟨rg, tg2, hmem3, hl, hcl⟩

theorem fromDetectors_pair (close : List ℝ → List ℝ → Bool) (nm : String)
    (d1 d2 : Detector) (hI : d1.indexes = some [])
    (hsh : d2.tallies.shape = d1.tallies.shape) :
    fromDetectors close nm [d1, d2] =
      match stepGrids close d1.grids [] d2 with
      | .error e => .error e
      | .ok gd => .ok (SD.init nm
          { shape := 2 :: d1.tallies.shape, rows := [d1.tallies.data, d2.tallies.data] }
          { shape := 2 :: d1.tallies.shape
            rows := [List.zipWith (fun a b => a * b) d1.tallies.data d1.errors.data,
              List.zipWith (fun a b => a * b) d2.tallies.data d2.errors.data] }
          (some []) gd.1, gd.2) := by
  have h1 := step_first close d1 [] hI
  have h2s : stepShape (some d1.tallies.shape) d2 = .ok d1.tallies.shape := by
    simp [stepShape, hsh]
  have h2i : stepIndexes (some ([] : List String)) d2 = .ok (some []) := rfl
  rcases hg : stepGrids close d1.grids [] d2 with e | gd
  · have h2 :
        step close
          { shape := some d1.tallies.shape, indexes := some [], grids := d1.grids, diff := [] }
          d2 = .error e := by
      simp [step, h2s, h2i, hg]
    simp [fromDetectors, runLoop, h1, h2, hg]
  · have h2 :
        step close
          { shape := some d1.tallies.shape, indexes := some [], grids := d1.grids, diff := [] }
          d2 =
          .ok { shape := some d1.tallies.shape, indexes := some [], grids := gd.1, diff := gd.2 } := by
      simp [step, h2s, h2i, hg]
    simp [fromDetectors, runLoop, h1, h2, hg]

/-! ### Claim theorems -/

/-- Claim C5 (confirmed; `free` modelled from the spec): after `free()`,
`spreadPlot` fails with the post-free `AttributeError`, while `tallies`,
`errors` and `deviation` are unchanged. -/
theorem free_blocks_spreadPlot_keeps_summaries (sd : SD) :
    spreadPlotCheck (SD.free sd) = .error .attrErrorFreed ∧
    (SD.free sd).tallies = sd.tallies ∧
    (SD.free sd).errors = sd.errors ∧
    (SD.free sd).deviation = sd.deviation :=
  ⟨rfl, rfl, rfl, rfl⟩

/-- Claim C3 (code bug): on a `SampledDetector` built from two runs of
shape `(2,)` (stored stacked shape `(2, 2)`), assigning a fresh `(2, 2)`
array to `allTallies` (resp. `allErrors`) raises
`ValueError("Expected shape to be (2, 2), is (2, 2)")`: the setter
compares against `self._tallies.shape` (= `(2,)`) while its message is
built from `self._allTallies.shape`, so a same-stacked-shape assignment
is rejected rather than accepted. -/
theorem allTallies_setter_shape_bug :
    setAllTallies
      (SD.init "d" { shape := [2, 2], rows := [[1, 2], [3, 4]] }
        { shape := [2, 2], rows := [[0, 0], [0, 0]] } none [])
      (some { shape := [2, 2], rows := [[5, 6], [7, 8]] }) =
      .error (.valueErrorShape [2, 2] [2, 2]) ∧
    setAllErrors
      (SD.init "d" { shape := [2, 2], rows := [[1, 2], [3, 4]] }
        { shape := [2, 2], rows := [[0, 0], [0, 0]] } none [])
      (some { shape := [2, 2], rows := [[5, 6], [7, 8]] }) =
      .error (.valueErrorShape [2, 2] [2, 2]) :=
  ⟨rfl, rfl⟩

/-- Claim C4 (code bug): a record with absent `indexes` processed while no
reference is established does not go unchecked; `fromDetectors` crashes
with the `AttributeError` from iterating `iteritems(None)` (its own
docstring promises a `KeyError` for missing index information). -/
theorem fromDetectors_missing_indexes_crash :
    fromDetectors (fun _ _ => true) "det0"
      [{ name := "d1", tallies := { shape := [1], data := [1] },
         errors := { shape := [1], data := [0] }, indexes := none, grids := [] }] =
      .error .attrErrorIndexItems :=
  rfl

/-- Claim C10 (confirmed): `deviation` is numpy's `std(axis=0)`, the
population standard deviation over the run axis — `sqrt` of the mean
(divisor `N` = number of runs, not `N - 1`) of the squared differences
from the per-bin mean.  The concrete conjunct separates the two
divisors: for runs `10, 12, 11` the stored value is `sqrt(2/3)`
(divisor 3), which differs from the sample value `sqrt(2/2)`. -/
theorem deviation_is_population_std :
    (∀ (nm : String) (allT allE : Stacked) (ix : Option (List String))
      (g : List (String × List ℝ)) (j : ℕ),
      (SD.init nm allT allE ix g).deviation j =
        Real.sqrt ((((colVals allT.rows j).map
          (fun x => (x - (SD.init nm allT allE ix g).tallies j) ^ 2)).sum) /
          allT.rows.length)) ∧
    (SD.init "d" { shape := [3, 1], rows := [[10], [12], [11]] }
      { shape := [3, 1], rows := [[0], [0], [0]] } none []).deviation 0 =
      Real.sqrt (2 / 3) ∧
    Real.sqrt (2 / 3) ≠ Real.sqrt (2 / 2) := by
  refine ⟨?_, ?_, ?_⟩
  · intro nm allT allE ix g j
    simp only [SD.init, sq_abs]
  · have hm : meanAt [[10], [12], [11]] 0 = 11 := by
      simp [meanAt, colVals]
      norm_num
    simp only [SD.init, colVals, List.map_cons, List.map_nil, hm, List.getD_cons_zero,
      List.sum_cons, List.sum_nil, List.length_cons, List.length_nil]
    norm_num
  · intro h
    rw [Real.sqrt_inj (by norm_num) (by norm_num)] at h
    norm_num at h

/-- Claim C1 (corrected): at a bin whose aggregated mean tally is `0`, the
stored relative error is not forced to `0`; the division by the tally is
merely skipped, leaving the absolute propagated value
`sqrt(square(allErrors).sum(axis=0)) / N`.  That value is `0` exactly
when every per-run absolute error at the bin is `0` — not regardless of
the supplied error values. -/
theorem errors_at_zero_tally_bins (nm : String) (allT allE : Stacked)
    (ix : Option (List String)) (g : List (String × List ℝ)) (j : ℕ)
    (hrows : allT.rows ≠ []) (h0 : (SD.init nm allT allE ix g).tallies j = 0) :
    (SD.init nm allT allE ix g).errors j =
      Real.sqrt (innerAt allE.rows j) / allT.rows.length ∧
    ((SD.init nm allT allE ix g).errors j = 0 ↔ ∀ x ∈ colVals allE.rows j, x = 0) := by
  have hm : meanAt allT.rows j = 0 := by simpa [SD.init] using h0
  have herr : (SD.init nm allT allE ix g).errors j =
      Real.sqrt (innerAt allE.rows j) / allT.rows.length := by
    simp only [SD.init, hm]
    simp
  refine ⟨herr, ?_⟩
  rw [herr]
  have hlen : ((allT.rows.length : ℕ) : ℝ) ≠ 0 := by
    exact_mod_cast (List.length_pos.mpr hrows).ne'
  constructor
  · intro h
    rcases div_eq_zero_iff.mp h with hs | hl
    · have hin0 : innerAt allE.rows j = 0 :=
        le_antisymm (Real.sqrt_eq_zero'.mp hs) (innerAt_nonneg _ _)
      have hall := (sum_eq_zero_iff_of_nonneg _
        (fun y hy => by
          rcases List.mem_map.mp hy with ⟨z, _, rfl⟩
          positivity)).mp hin0
      intro x hx
      have hx2 : x ^ 2 = 0 := hall (x ^ 2) (List.mem_map.mpr ⟨x, hx, rfl⟩)
      exact (pow_eq_zero_iff two_ne_zero).mp hx2
    · exact absurd hl hlen
  · intro hall
    have hin0 : innerAt allE.rows j = 0 := by
      apply List.sum_eq_zero
      intro y hy
      rcases List.mem_map.mp hy with ⟨z, hz, rfl⟩
      rw [hall z hz]
      norm_num
    rw [hin0, Real.sqrt_zero, zero_div]

/-- Counterexample to claim C1 as stated: a `SampledDetector` whose
per-run tallies `1` and `-1` average to `0` at bin `0` while the
supplied per-run absolute errors are `1`; the stored relative error is
`sqrt(2)/2`, not `0`. -/
theorem zero_tally_nonzero_error_cex :
    (SD.init "d" { shape := [2, 1], rows := [[1], [-1]] }
      { shape := [2, 1], rows := [[1], [1]] } none []).tallies 0 = 0 ∧
    (SD.init "d" { shape := [2, 1], rows := [[1], [-1]] }
      { shape := [2, 1], rows := [[1], [1]] } none []).errors 0 ≠ 0 := by
  have hm : meanAt [[1], [-1]] 0 = 0 := by
    simp [meanAt, colVals]
  constructor
  · simpa [SD.init] using hm
  · have hin : innerAt [[1], [1]] 0 = 2 := by
      simp [innerAt, colVals]
      norm_num
    simp only [SD.init, hm, hin, List.length_cons, List.length_nil]
    norm_num

/-- Witness for the corrected C1 theorem at a concrete input: per-run
tallies `1, -1` (mean `0`) and absolute errors `3, 4` give stored error
`sqrt(25)/2 = 5/2`. -/
theorem errors_at_zero_tally_bins_witness :
    (SD.init "w" { shape := [2, 1], rows := [[1], [-1]] }
      { shape := [2, 1], rows := [[3], [4]] } none []).tallies 0 = 0 ∧
    (SD.init "w" { shape := [2, 1], rows := [[1], [-1]] }
      { shape := [2, 1], rows := [[3], [4]] } none []).errors 0 = 5 / 2 := by
  have h0 : (SD.init "w" { shape := [2, 1], rows := [[1], [-1]] }
      { shape := [2, 1], rows := [[3], [4]] } none []).tallies 0 = 0 := by
    have hm : meanAt [[1], [-1]] 0 = 0 := by
      simp [meanAt, colVals]
    simpa [SD.init] using hm
  refine ⟨h0, ?_⟩
  have h := errors_at_zero_tally_bins "w" { shape := [2, 1], rows := [[1], [-1]] }
    { shape := [2, 1], rows := [[3], [4]] } none [] 0 (by simp) h0
  rw [h.1]
  have hin : innerAt [[3], [4]] 0 = 25 := by
    simp [innerAt, colVals]
    norm_num
  rw [hin, show (25 : ℝ) = 5 ^ 2 by norm_num, Real.sqrt_sq (by norm_num)]
  norm_num

/-- Claim C6 (corrected): aggregating exactly one record reproduces its
tallies exactly and yields zero deviation everywhere, but the stored
errors are only reproduced at bins with nonzero tally whose
tally-times-error product is nonnegative: at a bin with tally `t` and
relative error `e` the stored value is `|t*e| / t` when `t` is nonzero
and `0` when `t = 0` — not the record's `e` unconditionally.  (The
record must carry index metadata for `fromDetectors` to run at all.) -/
theorem single_record_aggregation (close : List ℝ → List ℝ → Bool) (nm : String)
    (d : Detector) (I : List String) (hI : d.indexes = some I)
    (hlen : d.tallies.data.length = d.errors.data.length) :
    ∃ sd, fromDetectors close nm [d] = .ok (sd, []) ∧
      (∀ j, sd.tallies j = d.tallies.data.getD j 0) ∧
      (∀ j, sd.deviation j = 0) ∧
      (∀ j, sd.errors j =
        if d.tallies.data.getD j 0 = 0 then 0
        else |d.tallies.data.getD j 0 * d.errors.data.getD j 0| /
          d.tallies.data.getD j 0) := by
  have hstep := step_first close d I hI
  refine ⟨SD.init nm { shape := 1 :: d.tallies.shape, rows := [d.tallies.data] }
    { shape := 1 :: d.tallies.shape,
      rows := [List.zipWith (fun a b => a * b) d.tallies.data d.errors.data] }
    (some I) d.grids, ?_, ?_, ?_, ?_⟩
  · simp [fromDetectors, runLoop, hstep]
  · intro j
    simp [SD.init, meanAt, colVals]
  · intro j
    simp [SD.init, meanAt, colVals]
  · intro j
    have hz : (List.zipWith (fun a b => a * b) d.tallies.data d.errors.data).getD j 0 =
        d.tallies.data.getD j 0 * d.errors.data.getD j 0 :=
      zipWith_mul_getD _ _ hlen j
    by_cases h0 : d.tallies.data.getD j 0 = 0
    · have hm : meanAt [d.tallies.data] j = 0 := by
        rw [meanAt_single, h0]
      have hin : innerAt
          [List.zipWith (fun a b => a * b) d.tallies.data d.errors.data] j = 0 := by
        rw [innerAt_single, hz, h0]
        norm_num
      simp only [SD.init, hm, hin, if_pos h0, ne_eq, not_true_eq_false]
      simp [Real.sqrt_zero]
    · have hm : meanAt [d.tallies.data] j = d.tallies.data.getD j 0 := meanAt_single _ _
      have hin : innerAt
          [List.zipWith (fun a b => a * b) d.tallies.data d.errors.data] j =
          (d.tallies.data.getD j 0 * d.errors.data.getD j 0) ^ 2 := by
        rw [innerAt_single, hz]
      simp only [SD.init, hm, hin, if_neg h0]
      rw [if_pos h0, Real.sqrt_sq_eq_abs]
      simp

/-- Counterexample to claim C6 as stated: a single record with tally `0`
and relative error `1` at its only bin aggregates to stored error `0`,
not to the record's error `1`. -/
theorem single_record_zero_tally_cex :
    ((fromDetectors (fun _ _ => true) "d" (List.replicate 1 (runRecord "d" 0 1))).map
      (fun p => p.1.errors 0)) = .ok 0 ∧ (0 : ℝ) ≠ 1 := by
  constructor
  · have hfd : fromDetectors (fun _ _ => true) "d" (List.replicate 1 (runRecord "d" 0 1)) =
        .ok (SD.init "d" { shape := [1, 1], rows := [[0]] }
          { shape := [1, 1], rows := [[(0 : ℝ) * 1]] } (some []) [], []) := rfl
    rw [hfd]
    simp only [Except.map]
    have hm : meanAt [[(0 : ℝ)]] 0 = 0 := by
      simp [meanAt, colVals]
    have hin : innerAt [[(0 : ℝ) * 1]] 0 = 0 := by
      simp [innerAt, colVals]
    simp only [SD.init, hm, hin, ne_eq, not_true_eq_false]
    simp [Real.sqrt_zero]
  · norm_num

/-- Claim C2 (corrected): the stored relative error divides the absolute
propagated value `sqrt(square(allErrors).sum(axis=0)) / N` (division by
`N`, not `sqrt(N)`) by the mean tally wherever that mean is nonzero; and
for `N` identical runs with tally `t` and relative error `e` at the only
bin, the result is `e / sqrt(N)` provided `t` is nonzero and `t * e` is
nonnegative (for `t * e < 0` the code yields `-e / sqrt(N)` instead,
since the absolute value `|t*e|` enters the quotient). -/
theorem identical_runs_error_propagation :
    (∀ (nm : String) (allT allE : Stacked) (ix : Option (List String))
        (g : List (String × List ℝ)) (j : ℕ),
      (SD.init nm allT allE ix g).tallies j ≠ 0 →
      (SD.init nm allT allE ix g).errors j =
        Real.sqrt (innerAt allE.rows j) / allT.rows.length /
          (SD.init nm allT allE ix g).tallies j) ∧
    (∀ (close : List ℝ → List ℝ → Bool) (nm : String) (t e : ℝ) (N : ℕ),
      1 ≤ N → t ≠ 0 → 0 ≤ t * e →
      ∃ sd, fromDetectors close nm (List.replicate N (runRecord nm t e)) =
        .ok (sd, []) ∧ sd.tallies 0 = t ∧ sd.errors 0 = e / Real.sqrt N) := by
  constructor
  · intro nm allT allE ix g j hne
    have hm : meanAt allT.rows j ≠ 0 := by simpa [SD.init] using hne
    simp only [SD.init, if_pos hm]
  · intro close nm t e N hN ht hte
    obtain ⟨m, rfl⟩ : ∃ m, N = m + 1 := ⟨N - 1, (Nat.succ_pred_eq_of_pos hN).symm⟩
    have hstep0 : step close { shape := none, indexes := none, grids := [], diff := [] }
        (runRecord nm t e) =
        .ok { shape := some [1], indexes := some [], grids := [], diff := [] } :=
      step_first close (runRecord nm t e) [] rfl
    have hsteady :
        step close { shape := some [1], indexes := some [], grids := [], diff := [] }
          (runRecord nm t e) =
        .ok { shape := some [1], indexes := some [], grids := [], diff := [] } := rfl
    have hloop : runLoop close { shape := none, indexes := none, grids := [], diff := [] }
        (List.replicate (m + 1) (runRecord nm t e)) =
        .ok { shape := some [1], indexes := some [], grids := [], diff := [] } := by
      rw [List.replicate_succ]
      simp only [runLoop, hstep0]
      exact runLoop_steady close _ _ hsteady m
    have hm : meanAt (List.replicate (m + 1) [t]) 0 = t :=
      meanAt_replicate (m + 1) (Nat.succ_ne_zero m) t
    have hi : innerAt (List.replicate (m + 1) [t * e]) 0 = (m + 1 : ℕ) * (t * e) ^ 2 :=
      innerAt_replicate (m + 1) (t * e)
    refine ⟨SD.init nm
      { shape := (m + 1) :: [1], rows := List.replicate (m + 1) [t] }
      { shape := (m + 1) :: [1], rows := List.replicate (m + 1) [t * e] }
      (some []) [], ?_, ?_, ?_⟩
    · simp only [fromDetectors, hloop, List.map_replicate, List.length_replicate]
      simp [runRecord]
    · simp only [SD.init]
      exact hm
    · have hN0 : (0 : ℝ) < ((m + 1 : ℕ) : ℝ) := by positivity
      have hsq : Real.sqrt (((m + 1 : ℕ) : ℝ) * (t * e) ^ 2) =
          Real.sqrt ((m + 1 : ℕ)) * (t * e) := by
        rw [Real.sqrt_mul (le_of_lt hN0), Real.sqrt_sq_eq_abs, abs_of_nonneg hte]
      have hs0 : Real.sqrt ((m + 1 : ℕ)) ≠ 0 := by
        rw [Real.sqrt_ne_zero']
        exact hN0
      have hself : Real.sqrt ((m + 1 : ℕ)) * Real.sqrt ((m + 1 : ℕ)) =
          ((m + 1 : ℕ) : ℝ) := Real.mul_self_sqrt (le_of_lt hN0)
      simp only [SD.init, hm, hi, if_pos ht, List.length_replicate]
      rw [hsq, div_div, div_eq_div_iff (mul_ne_zero (ne_of_gt hN0) ht) hs0]
      calc Real.sqrt ((m + 1 : ℕ)) * (t * e) * Real.sqrt ((m + 1 : ℕ))
          = Real.sqrt ((m + 1 : ℕ)) * Real.sqrt ((m + 1 : ℕ)) * (t * e) := by ring
        _ = ((m + 1 : ℕ) : ℝ) * (t * e) := by rw [hself]
        _ = e * (((m + 1 : ℕ) : ℝ) * t) := by ring

/-- Counterexample to claim C2 as stated: one run with tally `-1` and
relative error `1` — the code stores `-1` at the bin, while the claim's
`e / sqrt(N)` would be `1 / sqrt(1) = 1`. -/
theorem negative_tally_propagation_cex :
    ((fromDetectors (fun _ _ => true) "d" (List.replicate 1 (runRecord "d" (-1) 1))).map
      (fun p => p.1.errors 0)) = .ok (-1) ∧ ((-1 : ℝ) ≠ 1 / Real.sqrt 1) := by
  constructor
  · have hfd : fromDetectors (fun _ _ => true) "d"
        (List.replicate 1 (runRecord "d" (-1) 1)) =
        .ok (SD.init "d" { shape := [1, 1], rows := [[-1]] }
          { shape := [1, 1], rows := [[(-1 : ℝ) * 1]] } (some []) [], []) := rfl
    rw [hfd]
    simp only [Except.map]
    have hm : meanAt [[(-1 : ℝ)]] 0 = -1 := by
      rw [show [[(-1 : ℝ)]] = [([(-1 : ℝ)])] from rfl, meanAt_single]
      rfl
    have hin : innerAt [[(-1 : ℝ) * 1]] 0 = 1 := by
      rw [show [[(-1 : ℝ) * 1]] = [([(-1 : ℝ) * 1])] from rfl, innerAt_single]
      norm_num
    simp only [SD.init, hm, hin, List.length_cons, List.length_nil]
    rw [if_pos (by norm_num : (-1 : ℝ) ≠ 0), Real.sqrt_one]
    norm_num
  · rw [Real.sqrt_one]
    norm_num

/-- Witness for the corrected C2 theorem at a concrete input: four
identical runs with tally `2` and relative error `3`. -/
theorem identical_runs_error_propagation_witness :
    (1 : ℕ) ≤ 4 ∧
    ∃ sd, fromDetectors (fun _ _ => true) "w4"
        (List.replicate 4 (runRecord "w4" 2 3)) =
      .ok (sd, []) ∧ sd.tallies 0 = 2 ∧ sd.errors 0 = 3 / Real.sqrt ((4 : ℕ)) :=
  ⟨by norm_num,
    identical_runs_error_propagation.2 (fun _ _ => true) "w4" 2 3 4
      (by norm_num) (by norm_num) (by norm_num)⟩

/-- Claim C8 (confirmed): every record aggregated successfully has the
first record's tally shape, and a second record whose shape differs from
the reference is rejected with a `ValueError` reporting both the
reference shape and the offending shape.  `fromDetectors` performs this
check itself, independently of the validator (`checkSizes` is nowhere in
its call path in this model). -/
theorem tally_shape_agreement (close : List ℝ → List ℝ → Bool) (nm : String) :
    (∀ (d1 : Detector) (rest : List Detector) (sd : SD) (w : List String),
      fromDetectors close nm (d1 :: rest) = .ok (sd, w) →
      ∀ d ∈ d1 :: rest, d.tallies.shape = d1.tallies.shape) ∧
    (∀ (d1 d2 : Detector) (I : List String), d1.indexes = some I →
      d1.tallies.shape ≠ d2.tallies.shape →
      fromDetectors close nm [d1, d2] =
        .error (.valueErrorShape d1.tallies.shape d2.tallies.shape)) := by
  constructor
  · intro d1 rest sd w h d hd
    unfold fromDetectors at h
    rcases hrun : runLoop close { shape := none, indexes := none, grids := [], diff := [] }
        (d1 :: rest) with e | st
    · rw [hrun] at h
      exact Except.noConfusion h
    · simp only [runLoop] at hrun
      rcases hstep : step close { shape := none, indexes := none, grids := [], diff := [] }
          d1 with e | st1
      · rw [hstep] at hrun
        exact Except.noConfusion hrun
      · rw [hstep] at hrun
        have hsh1 : st1.shape = some d1.tallies.shape :=
          step_ok_shape_none close _ st1 d1 rfl hstep
        rcases List.mem_cons.mp hd with rfl | hmem
        · rfl
        · exact runLoop_ok_shapes close rest st1 st d1.tallies.shape hsh1 hrun d hmem
  · intro d1 d2 I hI hne
    have h1 := step_first close d1 I hI
    have h2 :
        step close
          { shape := some d1.tallies.shape, indexes := some I, grids := d1.grids, diff := [] }
          d2 =
        .error (.valueErrorShape d1.tallies.shape d2.tallies.shape) := by
      unfold step
      simp only [stepShape, if_neg hne]
    simp [fromDetectors, runLoop, h1, h2]

/-- Witness for the C8 theorem at concrete inputs: a successful
single-record aggregation whose record has shape `[1]`, and a rejected
pair with shapes `[1]` and `[2]`. -/
theorem tally_shape_agreement_witness :
    (∀ d ∈ [runRecord "a" 1 0], d.tallies.shape = [1]) ∧
    fromDetectors (fun _ _ => true) "n"
      [runRecord "a" 1 0,
       { name := "b", tallies := { shape := [2], data := [1, 1] },
         errors := { shape := [2], data := [0, 0] }, indexes := some [], grids := [] }] =
      .error (.valueErrorShape [1] [2]) := by
  constructor
  · have h : ∃ p, fromDetectors (fun _ _ => true) "n" [runRecord "a" 1 0] = .ok p :=
      ⟨_, rfl⟩
    rcases h with ⟨⟨sd, w⟩, hp⟩
    exact (tally_shape_agreement (fun _ _ => true) "n").1 (runRecord "a" 1 0) [] sd w hp
  · exact (tally_shape_agreement (fun _ _ => true) "n").2 (runRecord "a" 1 0)
      { name := "b", tallies := { shape := [2], data := [1, 1] },
        errors := { shape := [2], data := [0, 0] }, indexes := some [], grids := [] }
      [] rfl (by decide)

/-- Claim C7 (confirmed): with a non-empty reference grid mapping
established by the first record, a later record whose grids are entirely
absent raises the `AttributeError` naming that record; a later record
whose grids lack a reference name raises the `KeyError` naming the
record and the first such missing name; and reference grids that are
present in a later record but fail the tolerance comparison are not
fatal — aggregation succeeds and the single aggregate warning lists a
name exactly when some reference entry under that name is present but
divergent. -/
theorem grid_merge_errors_and_warning (close : List ℝ → List ℝ → Bool) (nm : String)
    (d1 dA dB dC : Detector) (pre post : List (String × List ℝ)) (k : String)
    (v : List ℝ) (hI : d1.indexes = some []) (h1g : d1.grids ≠ []) :
    (dA.tallies.shape = d1.tallies.shape → dA.grids = [] →
      fromDetectors close nm [d1, dA] = .error (.attrErrorGrids dA.name)) ∧
    (dB.tallies.shape = d1.tallies.shape → dB.grids ≠ [] →
      d1.grids = pre ++ (k, v) :: post →
      (∀ p ∈ pre, lookupGrid dB.grids p.1 ≠ none) →
      lookupGrid dB.grids k = none →
      fromDetectors close nm [d1, dB] = .error (.keyErrorGrid dB.name k)) ∧
    (dC.tallies.shape = d1.tallies.shape → dC.grids ≠ [] →
      (∀ p ∈ d1.grids, lookupGrid dC.grids p.1 ≠ none) →
      ∃ sd w, fromDetectors close nm [d1, dC] = .ok (sd, w) ∧
        ∀ key, (key ∈ w ↔ ∃ rg tg, (key, rg) ∈ d1.grids ∧
          lookupGrid dC.grids key = some tg ∧ close rg tg = false)) := by
  obtain ⟨g0, gs, hg1⟩ := List.exists_cons_of_ne_nil h1g
  refine ⟨?_, ?_, ?_⟩
  · intro hshA hgA
    rw [fromDetectors_pair close nm d1 dA hI hshA, hg1]
    simp [stepGrids, hgA]
  · intro hshB hgB hsplit hpre hmiss
    have hkey : checkGrids close dB.grids dB.name [] d1.grids =
        .error (.keyErrorGrid dB.name k) := by
      rw [hsplit]
      exact checkGrids_first_missing close dB.grids dB.name pre [] k v post hpre hmiss
    rw [fromDetectors_pair close nm d1 dB hI hshB,
      stepGrids_both_cons close d1.grids [] dB h1g hgB, hkey]
  · intro hshC hgC hall
    obtain ⟨diff2, hck, hmem⟩ :=
      checkGrids_all_present close dC.grids dC.name d1.grids [] hall
    refine ⟨SD.init nm
        { shape := 2 :: d1.tallies.shape, rows := [d1.tallies.data, dC.tallies.data] }
        { shape := 2 :: d1.tallies.shape
          rows := [List.zipWith (fun a b => a * b) d1.tallies.data d1.errors.data,
            List.zipWith (fun a b => a * b) dC.tallies.data dC.errors.data] }
        (some []) d1.grids, diff2, ?_, ?_⟩
    · rw [fromDetectors_pair close nm d1 dC hI hshC,
        stepGrids_both_cons close d1.grids [] dC h1g hgC, hck]
    · intro key
      rw [hmem key]
      simp

/-- Witness for the C7 theorem at concrete inputs: reference grids
`{"eg": [0]}`; a record with no grids is rejected with the attribute
error, a record with grids `{"other": [0]}` is rejected with the key
error for `"eg"`, and a record with grids `{"eg": [5]}` aggregates
successfully with `"eg"` reported in the warning (the tolerance
comparison here deems every pair divergent). -/
theorem grid_merge_errors_and_warning_witness :
    (fromDetectors (fun _ _ => false) "n"
      [{ name := "d1", tallies := { shape := [1], data := [1] },
         errors := { shape := [1], data := [0] }, indexes := some [],
         grids := [("eg", [0])] },
       { name := "dA", tallies := { shape := [1], data := [1] },
         errors := { shape := [1], data := [0] }, indexes := some [], grids := [] }] =
      .error (.attrErrorGrids "dA")) ∧
    (fromDetectors (fun _ _ => false) "n"
      [{ name := "d1", tallies := { shape := [1], data := [1] },
         errors := { shape := [1], data := [0] }, indexes := some [],
         grids := [("eg", [0])] },
       { name := "dB", tallies := { shape := [1], data := [1] },
         errors := { shape := [1], data := [0] }, indexes := some [],
         grids := [("other", [0])] }] =
      .error (.keyErrorGrid "dB" "eg")) ∧
    (∃ sd w, fromDetectors (fun _ _ => false) "n"
      [{ name := "d1", tallies := { shape := [1], data := [1] },
         errors := { shape := [1], data := [0] }, indexes := some [],
         grids := [("eg", [0])] },
       { name := "dC", tallies := { shape := [1], data := [1] },
         errors := { shape := [1], data := [0] }, indexes := some [],
         grids := [("eg", [5])] }] = .ok (sd, w) ∧ "eg" ∈ w) := by
  have h := grid_merge_errors_and_warning (fun _ _ => false) "n"
    { name := "d1", tallies := { shape := [1], data := [1] },
      errors := { shape := [1], data := [0] }, indexes := some [],
      grids := [("eg", [0])] }
    { name := "dA", tallies := { shape := [1], data := [1] },
      errors := { shape := [1], data := [0] }, indexes := some [], grids := [] }
    { name := "dB", tallies := { shape := [1], data := [1] },
      errors := { shape := [1], data := [0] }, indexes := some [],
      grids := [("other", [0])] }
    { name := "dC", tallies := { shape := [1], data := [1] },
      errors := { shape := [1], data := [0] }, indexes := some [],
      grids := [("eg", [5])] }
    [] [] "eg" [0] rfl (by simp)
  refine ⟨h.1 rfl rfl, h.2.1 rfl (by simp) rfl (by simp) rfl, ?_⟩
  obtain ⟨sd, w, hok, hiff⟩ := h.2.2 rfl (by simp) (by
    intro p hp
    rcases List.mem_singleton.mp hp with rfl
    simp [lookupGrid])
  exact ⟨sd, w, hok, (hiff "eg").mpr ⟨[0], [5], List.mem_singleton.mpr rfl,
    by simp [lookupGrid], rfl⟩⟩

/-- Witness for the corrected C6 theorem at a concrete input: a single
record with tally `2` and relative error `3` at its only bin. -/
theorem single_record_aggregation_witness :
    ∃ sd, fromDetectors (fun _ _ => true) "w" [runRecord "w" 2 3] = .ok (sd, []) ∧
      (∀ j, sd.tallies j = (runRecord "w" 2 3).tallies.data.getD j 0) ∧
      (∀ j, sd.deviation j = 0) ∧
      (∀ j, sd.errors j =
        if (runRecord "w" 2 3).tallies.data.getD j 0 = 0 then 0
        else |(runRecord "w" 2 3).tallies.data.getD j 0 *
            (runRecord "w" 2 3).errors.data.getD j 0| /
          (runRecord "w" 2 3).tallies.data.getD j 0) :=
  single_record_aggregation (fun _ _ => true) "w" (runRecord "w" 2 3) [] rfl rfl

/-- Claim C9 (confirmed): the size check records, per detector name, every
observed tally shape together with the file paths exhibiting it; two
sources exposing the same detector with the same shape pass silently,
while two distinct shapes raise the combinability error carrying each
shape mapped to its file paths.  (The name sets are assumed to agree, as
guaranteed by the key-set precheck that runs before `_checkSizes`.) -/
theorem checkSizes_shape_mapping (f1 f2 nm : String) (s1 s2 : List ℕ) :
    (s1 = s2 → checkSizes [{ filePath := f1, detectors := [(nm, s1)] },
      { filePath := f2, detectors := [(nm, s2)] }] = .ok ()) ∧
    (s1 ≠ s2 → checkSizes [{ filePath := f1, detectors := [(nm, s1)] },
      { filePath := f2, detectors := [(nm, s2)] }] =
      .error (.combinability [(s1, [f1]), (s2, [f2])])) := by
  constructor
  · rintro rfl
    simp [checkSizes, buildSizes, fillSizes, sizesUpdate, updateLevel, firstMismatch,
      addPath]
  · intro hne
    simp [checkSizes, buildSizes, fillSizes, sizesUpdate, updateLevel, firstMismatch,
      hne]

/-- Witness for the C9 theorem at concrete inputs: detector `A` with
shapes `(3, 4)` and `(3, 5)` raises the combinability error keyed by
shape, while a matching pair passes silently. -/
theorem checkSizes_shape_mapping_witness :
    checkSizes [{ filePath := "f1", detectors := [("A", [3, 4])] },
      { filePath := "f2", detectors := [("A", [3, 5])] }] =
      .error (.combinability [([3, 4], ["f1"]), ([3, 5], ["f2"])]) ∧
    checkSizes [{ filePath := "f1", detectors := [("A", [3, 4])] },
      { filePath := "f3", detectors := [("A", [3, 4])] }] = .ok () :=
  ⟨(checkSizes_shape_mapping "f1" "f2" "A" [3, 4] [3, 5]).2 (by decide),
   (checkSizes_shape_mapping "f1" "f3" "A" [3, 4] [3, 4]).1 rfl⟩

end SerpentTools
